import Mathlib

/-! Muon download delegate and utility client.

A shallow embedding of `atom/browser/atom_download_manager_delegate.cc` and
`atom/utility/atom_content_utility_client.cc`.

The delegate is embedded as compiled with `FULL_SAFE_BROWSING` defined, the
only build in which `SafeBrowsingState`, `CheckDownloadUrlDone` and
`CheckClientDownloadDone` exist.

Conventions:
* a C++ pointer that may be null is an `Option`;
* a method that mutates the object it is called on returns the new object;
* calls into the host engine that this code cannot observe further (posting a
  task, running a callback, opening a dialog) are recorded, in order, as
  `Effect`s;
* dereferencing a null pointer or indexing an empty vector sets `crashed`, and
  nothing after that point is executed; a failing `DCHECK` sets
  `dcheck_failed`.
-/

namespace Muon

/-! ## Host engine value types -/

/-- A `base::FilePath`, by its string; `empty()` is the empty string. -/
abbrev FilePath := String

/-- The enumeration `content::DownloadDangerType`. -/
inductive DownloadDangerType where
  | NOT_DANGEROUS
  | DANGEROUS_FILE
  | DANGEROUS_URL
  | DANGEROUS_CONTENT
  | MAYBE_DANGEROUS_CONTENT
  | UNCOMMON_CONTENT
  | USER_VALIDATED
  | DANGEROUS_HOST
  | POTENTIALLY_UNWANTED
  deriving DecidableEq, Repr

/-- The enumeration `safe_browsing::DownloadCheckResult`. -/
inductive DownloadCheckResult where
  | UNKNOWN
  | SAFE
  | DANGEROUS
  | UNCOMMON
  | DANGEROUS_HOST
  | POTENTIALLY_UNWANTED
  deriving DecidableEq, Repr

/-- The enumeration `safe_browsing::DownloadFileType::DangerLevel`. -/
inductive DangerLevel where
  | NOT_DANGEROUS
  | ALLOW_ON_USER_GESTURE
  | DANGEROUS
  deriving DecidableEq, Repr

/-- The enumeration `content::DownloadItem::DownloadState`. -/
inductive DownloadState where
  | IN_PROGRESS
  | COMPLETE
  | CANCELLED
  | INTERRUPTED
  deriving DecidableEq, Repr

/-- The interrupt reasons of `content::DownloadInterruptReason` that this code
names, and `OTHER` for each of the remaining ones. -/
inductive DownloadInterruptReason where
  | NONE
  | FILE_BLOCKED
  | USER_CANCELED
  | OTHER (code : Nat)
  deriving DecidableEq, Repr

/-- The enumeration `content::DownloadItem::TargetDisposition`. -/
inductive TargetDisposition where
  | TARGET_DISPOSITION_OVERWRITE
  | TARGET_DISPOSITION_PROMPT
  deriving DecidableEq, Repr

/-- The enumeration `DownloadPathReservationTracker::FilenameConflictAction`. -/
inductive FilenameConflictAction where
  | UNIQUIFY
  | OVERWRITE
  | PROMPT
  deriving DecidableEq, Repr

/-- A `base::Closure`: either one handed in by the host (known only by a tag),
or the one `ShouldCompleteDownload` builds with
`base::Bind(&ShouldCompleteDownloadInternal, weak_ptr, id, user_complete_callback)`. -/
inductive Closure where
  | host (tag : Nat)
  | ShouldCompleteDownloadInternal (download_id : Nat) (user_complete_callback : Closure)
  deriving DecidableEq, Repr

/-- Modelled from the spec: `DownloadCompletionBlocker`, the base class of
`SafeBrowsingState`, is declared in
`chrome/browser/download/download_completion_blocker.h`, which is not part of
the sources at hand. It is the "check in progress" flag of the spec together
with the one pending completion callback (`none` is the null closure). -/
structure SafeBrowsingState where
  is_complete : Bool
  callback : Option Closure
  deriving DecidableEq, Repr

/-- Modelled from the spec: the constructor `SafeBrowsingState()`: the check is
in progress and no callback is pending. -/
def SafeBrowsingState.new : SafeBrowsingState :=
  { is_complete := false, callback := none }

/-- Modelled from the spec: `DownloadCompletionBlocker::set_callback`: the
given closure becomes the single pending callback. -/
def SafeBrowsingState.set_callback (state : SafeBrowsingState) (callback : Closure) :
    SafeBrowsingState :=
  { state with callback := some callback }

/-- Modelled from the spec: the wrapper `atom::api::DownloadItem` lives in
`atom/browser/api/atom_api_download_item.cc`, which is not part of the sources
at hand; only its save path and its MIME type are read or written here. -/
structure ApiDownloadItem where
  save_path : FilePath
  mime_type : String
  deriving DecidableEq, Repr

/-- A `NativeWindow`; `inspectable_web_contents` stands for
`window->inspectable_web_contents()->GetWebContents()`. -/
structure NativeWindow where
  inspectable_web_contents : Nat
  deriving DecidableEq, Repr

/-- A `NativeWindowRelay`; `window` is `relay->window.get()`. -/
structure NativeWindowRelay where
  window : Option NativeWindow
  deriving DecidableEq, Repr

/-- A `content::WebContents`; `relay` is `NativeWindowRelay::FromWebContents`. -/
structure WebContents where
  relay : Option NativeWindowRelay
  deriving DecidableEq, Repr

/-- The part of a `content::DownloadItem` this code reads or writes.
`danger_level` is `DownloadItemModel(item).GetDangerLevel()`, `user_data` is
`GetUserData(&kSafeBrowsingUserDataKey)`, `wrapper` is
`api::DownloadItem::FromWrappedClass(isolate, item)`, `content_checks` lists
the arguments of the `OnContentCheckCompleted` calls received, oldest first,
and `removed` is set by `Remove()`. -/
structure DownloadItem where
  id : Nat
  state : DownloadState
  danger_type : DownloadDangerType
  danger_level : DangerLevel
  user_data : Option SafeBrowsingState
  content_checks : List (DownloadDangerType × DownloadInterruptReason)
  web_contents : Option WebContents
  wrapper : Option ApiDownloadItem
  forced_file_path : FilePath
  suggested_filename : String
  mime_type : String
  url : String
  content_disposition : String
  removed : Bool
  deriving DecidableEq, Repr

/-- The call `item->OnContentCheckCompleted(danger_type, reason)`: the item takes
the danger type, and the call is recorded with its reason. -/
def DownloadItem.OnContentCheckCompleted (item : DownloadItem)
    (danger_type : DownloadDangerType) (reason : DownloadInterruptReason) : DownloadItem :=
  { item with
    danger_type := danger_type
    content_checks := item.content_checks ++ [(danger_type, reason)] }

/-- The call `item->SetUserData(&kSafeBrowsingUserDataKey, state)`. -/
def DownloadItem.SetUserData (item : DownloadItem) (state : SafeBrowsingState) :
    DownloadItem :=
  { item with user_data := some state }

/-- The call `item->Remove()`. -/
def DownloadItem.Remove (item : DownloadItem) : DownloadItem :=
  { item with removed := true }

/-- A `safe_browsing::DownloadProtectionService`, by a handle. -/
structure DownloadProtectionService where
  handle : Nat
  deriving DecidableEq, Repr

/-- A `safe_browsing::SafeBrowsingService`; `download_protection_service` may be
null. -/
structure SafeBrowsingService where
  download_protection_service : Option DownloadProtectionService
  deriving DecidableEq, Repr

/-- The argument `std::unique_ptr<DownloadTargetInfo>` of
`OnDownloadTargetDetermined`, by the fields read. -/
structure DownloadTargetInfo where
  target_path : FilePath
  danger_type : DownloadDangerType
  result : DownloadInterruptReason
  deriving DecidableEq, Repr

/-- The profile preferences, by the one preference used,
`prefs::kDownloadDefaultDirectory`. -/
structure Prefs where
  download_default_directory : FilePath
  deriving DecidableEq, Repr

/-- The library functions on paths and names that the delegate calls:
`base::FilePath::DirName`, `base::FilePath::Append`, `net::GenerateFileName`
(url, content disposition, referrer charset, suggested name, MIME type,
default name) and `net::GetPreferredExtensionForMimeType` (`none` when it
returns false). -/
structure PathLibrary where
  DirName : FilePath → FilePath
  Append : FilePath → FilePath → FilePath
  GenerateFileName : String → String → String → String → String → String → FilePath
  GetPreferredExtensionForMimeType : String → Option String

/-- The `ui::SelectFileDialog::FileTypeInfo` built for the save dialog. -/
structure FileTypeInfo where
  extensions : List (List String)
  include_all_files : Bool
  deriving DecidableEq, Repr

/-- The calls into the host engine that the delegate makes, as observed from
outside. Callbacks of type `CheckDownloadUrlCallback` and
`DownloadTargetCallback` are known by a tag. -/
inductive Effect where
  /-- The call `service->CheckClientDownload(item, Bind(&CheckClientDownloadDone, weak, id))`. -/
  | CheckClientDownload (download_id : Nat)
  /-- The call `BrowserThread::PostTask(UI, FROM_HERE, task)`. -/
  | PostTask (task : Closure)
  /-- The call `callback_.Run()` on a stored completion closure. -/
  | RunClosure (callback : Closure)
  /-- The call `service->CheckDownloadUrl(download, Bind(&CheckDownloadUrlDone, callback))`. -/
  | ServiceCheckDownloadUrl (download_id : Nat) (callback : Nat)
  /-- The call `callback.Run(danger_type)` on a `CheckDownloadUrlCallback`. -/
  | RunCheckDownloadUrlCallback (callback : Nat) (danger_type : DownloadDangerType)
  /-- The call `callback.Run(target_path, disposition, danger_type, intermediate_path, reason)`. -/
  | RunTargetCallback (callback : Nat) (target_path : FilePath)
      (disposition : TargetDisposition) (danger_type : DownloadDangerType)
      (intermediate_path : FilePath) (interrupt_reason : DownloadInterruptReason)
  /-- The construction `new extensions::FileEntryPicker(web_contents, path, info,
  SELECT_SAVEAS_FILE, Bind(&OnDownloadItemSelected, callback, download_item),
  Bind(&OnDownloadItemSelectionCancelled, callback, item))`. -/
  | FileEntryPicker (web_contents : Nat) (suggested_name : FilePath)
      (file_type_info : FileTypeInfo) (callback : Nat) (download_id : Nat)
  /-- The call `DownloadTargetDeterminer::Start(download, virtual_path, action, prefs,
  this, Bind(&OnDownloadTargetDetermined, weak, id, callback))`. -/
  | DownloadTargetDeterminerStart (download_id : Nat) (virtual_path : FilePath)
      (conflict_action : FilenameConflictAction) (callback : Nat)
  deriving DecidableEq, Repr

/-! ## `atom_download_manager_delegate.cc` -/

/-- The constant `kDefaultPlatformConflictAction`. -/
def kDefaultPlatformConflictAction : FilenameConflictAction :=
  FilenameConflictAction.UNIQUIFY

/-- The function `CheckDownloadUrlDone(callback, result)`. -/
def CheckDownloadUrlDone (callback : Nat) (result : DownloadCheckResult) : List Effect :=
  if result = DownloadCheckResult.SAFE ∨ result = DownloadCheckResult.UNKNOWN then
    [Effect.RunCheckDownloadUrlCallback callback DownloadDangerType.NOT_DANGEROUS]
  else
    [Effect.RunCheckDownloadUrlCallback callback DownloadDangerType.DANGEROUS_URL]

/-- The method `GetDownloadProtectionService()`; `sb_service` is
`g_browser_process->safe_browsing_service()`. -/
def GetDownloadProtectionService (sb_service : Option SafeBrowsingService) :
    Option DownloadProtectionService :=
  match sb_service with
  | some sb =>
    match sb.download_protection_service with
    | some service => some service
    | none => none
  | none => none

/-- What `IsDownloadReadyForCompletion` returns, the item afterwards, and the
calls it made. -/
structure Readiness where
  ready : Bool
  item : DownloadItem
  effects : List Effect
  deriving DecidableEq, Repr

/-- The method `IsDownloadReadyForCompletion(item, internal_complete_callback)`. -/
def IsDownloadReadyForCompletion (sb_service : Option SafeBrowsingService)
    (item : DownloadItem) (internal_complete_callback : Closure) : Readiness :=
  match item.user_data with
  | none =>
    match GetDownloadProtectionService sb_service with
    | some _ =>
      let state := SafeBrowsingState.new.set_callback internal_complete_callback
      { ready := false
        item := item.SetUserData state
        effects := [Effect.CheckClientDownload item.id] }
    | none =>
      let danger_type := item.danger_type
      if item.danger_level ≠ DangerLevel.NOT_DANGEROUS ∧
          (danger_type = DownloadDangerType.NOT_DANGEROUS ∨
           danger_type = DownloadDangerType.MAYBE_DANGEROUS_CONTENT) then
        { ready := false
          item := item.OnContentCheckCompleted DownloadDangerType.DANGEROUS_FILE
            DownloadInterruptReason.FILE_BLOCKED
          effects := [Effect.PostTask internal_complete_callback] }
      else
        { ready := true, item := item, effects := [] }
  | some state =>
    if !state.is_complete then
      { ready := false
        item := item.SetUserData (state.set_callback internal_complete_callback)
        effects := [] }
    else
      { ready := true, item := item, effects := [] }

/-- The method `ShouldCompleteDownload(item, user_complete_callback)`. -/
def ShouldCompleteDownload (sb_service : Option SafeBrowsingService)
    (item : DownloadItem) (user_complete_callback : Closure) : Readiness :=
  IsDownloadReadyForCompletion sb_service item
    (Closure.ShouldCompleteDownloadInternal item.id user_complete_callback)

/-- What a method that looks its item up by id leaves behind: the item
afterwards (`none` when the id resolved to no item), the calls made, in order,
whether a null pointer was dereferenced or an empty vector indexed, and
whether a `DCHECK` failed. -/
structure Outcome where
  item : Option DownloadItem
  effects : List Effect
  crashed : Bool
  dcheck_failed : Bool
  deriving DecidableEq, Repr

/-- The method `ShouldCompleteDownloadInternal(download_id, user_complete_callback)`;
`download_manager` is `download_manager_->GetDownload`. -/
def ShouldCompleteDownloadInternal (sb_service : Option SafeBrowsingService)
    (download_manager : Nat → Option DownloadItem) (download_id : Nat)
    (user_complete_callback : Closure) : Outcome :=
  match download_manager download_id with
  | none => { item := none, effects := [], crashed := false, dcheck_failed := false }
  | some item =>
    let r := ShouldCompleteDownload sb_service item user_complete_callback
    if r.ready then
      { item := some r.item
        effects := r.effects ++ [Effect.RunClosure user_complete_callback]
        crashed := false, dcheck_failed := false }
    else
      { item := some r.item, effects := r.effects, crashed := false, dcheck_failed := false }

/-- The method `CheckDownloadUrl(download, suggested_path, callback)`. -/
def CheckDownloadUrl (sb_service : Option SafeBrowsingService) (download : DownloadItem)
    (_suggested_path : FilePath) (callback : Nat) : List Effect :=
  match GetDownloadProtectionService sb_service with
  | some _ => [Effect.ServiceCheckDownloadUrl download.id callback]
  | none => [Effect.RunCheckDownloadUrlCallback callback DownloadDangerType.NOT_DANGEROUS]

/-- Modelled from the spec: `DownloadCompletionBlocker::CompleteDownload`, not
part of the sources at hand: the flag is set, and the pending callback, when
there is one, is run; a state that is already complete runs nothing. -/
def SafeBrowsingState.CompleteDownload (state : SafeBrowsingState) :
    SafeBrowsingState × List Effect :=
  if state.is_complete then
    (state, [])
  else
    match state.callback with
    | none => ({ state with is_complete := true }, [])
    | some callback => ({ state with is_complete := true }, [Effect.RunClosure callback])

/-- The local `danger_type` that `CheckClientDownloadDone` computes in its
`switch (result)`, from the verdict and `DownloadItemModel(item).GetDangerLevel()`. -/
def CheckClientDownloadDone_danger_type (result : DownloadCheckResult)
    (danger_level : DangerLevel) : DownloadDangerType :=
  match result with
  | DownloadCheckResult.UNKNOWN =>
    if danger_level ≠ DangerLevel.NOT_DANGEROUS then DownloadDangerType.DANGEROUS_FILE
    else DownloadDangerType.NOT_DANGEROUS
  | DownloadCheckResult.SAFE =>
    if danger_level = DangerLevel.DANGEROUS then DownloadDangerType.DANGEROUS_FILE
    else DownloadDangerType.NOT_DANGEROUS
  | _ => DownloadDangerType.DANGEROUS_FILE

/-- The method `CheckClientDownloadDone(download_id, result)`; `download_manager`
is `download_manager_->GetDownload`. -/
def CheckClientDownloadDone (download_manager : Nat → Option DownloadItem)
    (download_id : Nat) (result : DownloadCheckResult) : Outcome :=
  match download_manager download_id with
  | none => { item := none, effects := [], crashed := false, dcheck_failed := false }
  | some item =>
    if item.state ≠ DownloadState.IN_PROGRESS then
      { item := some item, effects := [], crashed := false, dcheck_failed := false }
    else
      let checked : DownloadItem × Bool :=
        if item.danger_type = DownloadDangerType.NOT_DANGEROUS ∨
            item.danger_type = DownloadDangerType.MAYBE_DANGEROUS_CONTENT then
          let danger_type := CheckClientDownloadDone_danger_type result item.danger_level
          let dcheck_ne := decide (danger_type ≠ DownloadDangerType.MAYBE_DANGEROUS_CONTENT)
          if danger_type ≠ DownloadDangerType.NOT_DANGEROUS then
            (item.OnContentCheckCompleted danger_type DownloadInterruptReason.FILE_BLOCKED,
              !dcheck_ne)
          else
            (item, !dcheck_ne)
        else
          (item, false)
      match checked.1.user_data with
      | none =>
        { item := some checked.1, effects := [], crashed := true, dcheck_failed := checked.2 }
      | some state =>
        let done := state.CompleteDownload
        { item := some (checked.1.SetUserData done.1)
          effects := done.2
          crashed := false
          dcheck_failed := checked.2 }

/-- What `OnDownloadItemSelected` leaves behind: the preferences, the wrapper
it was bound to, the calls made, and the two failure flags. -/
structure Selection where
  prefs : Prefs
  download_item : Option ApiDownloadItem
  effects : List Effect
  crashed : Bool
  dcheck_failed : Bool
  deriving DecidableEq, Repr

/-- The method `OnDownloadItemSelected(callback, download_item, paths)`. With an
empty `paths` the `DCHECK` fails and `paths[0]` indexes an empty vector. -/
def OnDownloadItemSelected (lib : PathLibrary) (prefs : Prefs) (callback : Nat)
    (download_item : Option ApiDownloadItem) (paths : List FilePath) : Selection :=
  match paths with
  | [] =>
    { prefs := prefs, download_item := download_item, effects := []
      crashed := true, dcheck_failed := true }
  | path0 :: _ =>
    { prefs := { prefs with download_default_directory := lib.DirName path0 }
      download_item := download_item.map (fun d => { d with save_path := path0 })
      effects := [Effect.RunTargetCallback callback path0
        TargetDisposition.TARGET_DISPOSITION_PROMPT DownloadDangerType.NOT_DANGEROUS path0
        DownloadInterruptReason.NONE]
      crashed := false, dcheck_failed := false }

/-- What `OnDownloadItemSelectionCancelled` leaves behind. -/
structure Cancellation where
  prefs : Prefs
  item : DownloadItem
  effects : List Effect
  deriving DecidableEq, Repr

/-- The method `OnDownloadItemSelectionCancelled(callback, item)`. -/
def OnDownloadItemSelectionCancelled (prefs : Prefs) (callback : Nat)
    (item : DownloadItem) : Cancellation :=
  let path : FilePath := ""
  { prefs := prefs
    item := item.Remove
    effects := [Effect.RunTargetCallback callback path
      TargetDisposition.TARGET_DISPOSITION_PROMPT DownloadDangerType.NOT_DANGEROUS path
      DownloadInterruptReason.USER_CANCELED] }

/-- The method `GetItemSavePath(item, &path)`: the value of `path` afterwards. -/
def GetItemSavePath (item : DownloadItem) (path : FilePath) : FilePath :=
  match item.wrapper with
  | some download => if download.save_path ≠ "" then download.save_path else path
  | none => path

/-- The method `GetItemExtension(item, &extension)`: `some extension` when it
returns true. -/
def GetItemExtension (lib : PathLibrary) (item : DownloadItem) : Option String :=
  match item.wrapper with
  | some download =>
    if download.mime_type ≠ "" then lib.GetPreferredExtensionForMimeType download.mime_type
    else none
  | none => none

/-- Modelled from the spec: `atom::api::DownloadItem::Create(isolate, item)`, not
part of the sources at hand: a new wrapper of the item, with no save path set. -/
def ApiDownloadItem.Create (item : DownloadItem) : ApiDownloadItem :=
  { save_path := "", mime_type := item.mime_type }

/-- The local `window` that `OnDownloadTargetDetermined` computes: the native
window of the item's web contents, null when the item has no web contents,
when they have no relay, or when the relay has no window. -/
def OnDownloadTargetDetermined_window (item : DownloadItem) : Option NativeWindow :=
  match item.web_contents with
  | some web_contents =>
    match web_contents.relay with
    | some relay => relay.window
    | none => none
  | none => none

/-- The local `file_type_info` that `OnDownloadTargetDetermined` fills in for
the save dialog. -/
def OnDownloadTargetDetermined_file_type_info (lib : PathLibrary) (item : DownloadItem) :
    FileTypeInfo :=
  match GetItemExtension lib item with
  | some extension => { extensions := [[extension]], include_all_files := true }
  | none => { extensions := [], include_all_files := true }

/-- The method `OnDownloadTargetDetermined(download_id, callback, target_info)`;
`download_manager` is `download_manager_->GetDownload`. With an empty path and
a null `window`, `window->inspectable_web_contents()` dereferences null. -/
def OnDownloadTargetDetermined (lib : PathLibrary)
    (download_manager : Nat → Option DownloadItem) (download_id : Nat) (callback : Nat)
    (target_info : DownloadTargetInfo) : Outcome :=
  match download_manager download_id with
  | none => { item := none, effects := [], crashed := false, dcheck_failed := false }
  | some item0 =>
    let item1 := item0.OnContentCheckCompleted target_info.danger_type
      DownloadInterruptReason.NONE
    let item2 : DownloadItem :=
      match item1.wrapper with
      | some _ => item1
      | none => { item1 with wrapper := some (ApiDownloadItem.Create item1) }
    let path := target_info.target_path
    let window := OnDownloadTargetDetermined_window item2
    let path := GetItemSavePath item2 path
    if path = "" then
      let file_type_info := OnDownloadTargetDetermined_file_type_info lib item2
      match window with
      | none =>
        { item := some item2, effects := [], crashed := true, dcheck_failed := false }
      | some w =>
        { item := some item2
          effects := [Effect.FileEntryPicker w.inspectable_web_contents path file_type_info
            callback item2.id]
          crashed := false, dcheck_failed := false }
    else
      { item := some { item2 with
          wrapper := item2.wrapper.map (fun d => { d with save_path := path }) }
        effects := [Effect.RunTargetCallback callback path
          TargetDisposition.TARGET_DISPOSITION_PROMPT target_info.danger_type path
          target_info.result]
        crashed := false, dcheck_failed := false }

/-- The local `virtual_path` that `DetermineDownloadTarget` hands to
`DownloadTargetDeterminer::Start`. -/
def DetermineDownloadTarget_virtual_path (lib : PathLibrary) (prefs : Prefs)
    (download : DownloadItem) : FilePath :=
  let default_download_path := prefs.download_default_directory
  let virtual_path := download.forced_file_path
  if virtual_path = "" then
    let suggested_filename :=
      if download.suggested_filename = "" ∧
          download.mime_type = "application/x-x509-user-cert" then "user.crt"
      else download.suggested_filename
    let generated_filename := lib.GenerateFileName download.url
      download.content_disposition "" suggested_filename download.mime_type ""
    lib.Append default_download_path generated_filename
  else
    virtual_path

/-- The method `DetermineDownloadTarget(download, callback)`: its return value
and the calls made. -/
def DetermineDownloadTarget (lib : PathLibrary) (prefs : Prefs) (download : DownloadItem)
    (callback : Nat) : Bool × List Effect :=
  (true, [Effect.DownloadTargetDeterminerStart download.id
    (DetermineDownloadTarget_virtual_path lib prefs download)
    kDefaultPlatformConflictAction callback])

/-! ## The completion check of one download, over time -/

/-- What happens to one download while its completion is pending: the host
asks `IsDownloadReadyForCompletion` with a closure, or the protection service
answers the client-download check. -/
inductive CompletionEvent where
  | IsDownloadReadyForCompletion (internal_complete_callback : Closure)
  | CheckClientDownloadDone (result : DownloadCheckResult)
  deriving DecidableEq, Repr

/-- The download as the events go by: the item, every call made so far, the
values `IsDownloadReadyForCompletion` returned so far, and whether the
delegate crashed. -/
structure CompletionRun where
  item : DownloadItem
  effects : List Effect
  returns : List Bool
  crashed : Bool
  deriving DecidableEq, Repr

/-- The start of a run: nothing has been called yet. -/
def CompletionRun.start (item : DownloadItem) : CompletionRun :=
  { item := item, effects := [], returns := [], crashed := false }

/-- One event. The download manager of the run knows exactly the one item.
After a crash nothing happens any more. -/
def CompletionRun.step (sb_service : Option SafeBrowsingService) (run : CompletionRun)
    (event : CompletionEvent) : CompletionRun :=
  if run.crashed then run
  else
    match event with
    | CompletionEvent.IsDownloadReadyForCompletion callback =>
      let r := IsDownloadReadyForCompletion sb_service run.item callback
      { item := r.item
        effects := run.effects ++ r.effects
        returns := run.returns ++ [r.ready]
        crashed := false }
    | CompletionEvent.CheckClientDownloadDone result =>
      let o := CheckClientDownloadDone
        (fun id => if id = run.item.id then some run.item else none) run.item.id result
      { item := o.item.getD run.item
        effects := run.effects ++ o.effects
        returns := run.returns
        crashed := o.crashed }

/-- A sequence of events, from the left. -/
def CompletionRun.steps (sb_service : Option SafeBrowsingService) (run : CompletionRun)
    (events : List CompletionEvent) : CompletionRun :=
  events.foldl (CompletionRun.step sb_service) run

/-- The client-download checks started among the calls made. -/
def checksStarted (effects : List Effect) : List Nat :=
  effects.filterMap fun e =>
    match e with
    | Effect.CheckClientDownload id => some id
    | _ => none

/-- The stored completion closures run among the calls made. -/
def closuresRun (effects : List Effect) : List Closure :=
  effects.filterMap fun e =>
    match e with
    | Effect.RunClosure callback => some callback
    | _ => none

/-- The session of one URL check: `CheckDownloadUrl` is called, and the
protection service, when one was asked, answers each request with `verdict`
through the bound `CheckDownloadUrlDone`. The result is every call made. -/
def CheckDownloadUrlSession (sb_service : Option SafeBrowsingService)
    (download : DownloadItem) (suggested_path : FilePath) (callback : Nat)
    (verdict : DownloadCheckResult) : List Effect :=
  let started := CheckDownloadUrl sb_service download suggested_path callback
  started ++ started.flatMap fun e =>
    match e with
    | Effect.ServiceCheckDownloadUrl _ bound => CheckDownloadUrlDone bound verdict
    | _ => []

/-- The danger types delivered to the `CheckDownloadUrlCallback` tagged
`callback` among the calls made. -/
def dangerTypesDelivered (callback : Nat) (effects : List Effect) : List DownloadDangerType :=
  effects.filterMap fun e =>
    match e with
    | Effect.RunCheckDownloadUrlCallback c danger_type =>
      if c = callback then some danger_type else none
    | _ => none

/-! ## `atom_content_utility_client.cc` -/

/-- The factories bound into an `EmbeddedServiceInfo`. -/
inductive ServiceFactory where
  | ProxyResolverService_CreateService
  | BraveProfileImportService_CreateService
  | other (tag : Nat)
  deriving DecidableEq, Repr

/-- A `service_manager::EmbeddedServiceInfo`, by the two fields assigned here;
a default-constructed one has neither. Task runners are known by a handle. -/
structure EmbeddedServiceInfo where
  factory : Option ServiceFactory
  task_runner : Option Nat
  deriving DecidableEq, Repr

/-- The type `StaticServiceMap`, a `std::map` from service name to
`EmbeddedServiceInfo`, by its lookup. -/
abbrev StaticServiceMap := String → Option EmbeddedServiceInfo

/-- The call `services->emplace(name, info)` of `std::map`: the pair is inserted
unless the map already holds an element under `name`. -/
def StaticServiceMap.emplace (services : StaticServiceMap) (name : String)
    (info : EmbeddedServiceInfo) : StaticServiceMap :=
  fun key =>
    if key = name then
      match services name with
      | some present => some present
      | none => some info
    else services key

/-- The method `RegisterServices(services)`. The two service names are constants
of the host engine's mojom files, and `io_task_runner` is
`content::ChildThread::Get()->GetIOTaskRunner()`. -/
def RegisterServices (kProxyResolverServiceName kProfileImportServiceName : String)
    (io_task_runner : Nat) (services : StaticServiceMap) : StaticServiceMap :=
  let proxy_resolver_info : EmbeddedServiceInfo :=
    { factory := some ServiceFactory.ProxyResolverService_CreateService
      task_runner := some io_task_runner }
  let services := services.emplace kProxyResolverServiceName proxy_resolver_info
  let profile_import_info : EmbeddedServiceInfo :=
    { factory := some ServiceFactory.BraveProfileImportService_CreateService
      task_runner := none }
  services.emplace kProfileImportServiceName profile_import_info

/-- A `UtilityMessageHandler`: a tag to tell handlers apart, and which messages
(known by a number) its `OnMessageReceived` accepts. -/
structure UtilityMessageHandler where
  tag : Nat
  OnMessageReceived : Nat → Bool

/-- The members of `AtomContentUtilityClient`. -/
structure AtomContentUtilityClient where
  utility_process_running_elevated : Bool
  handlers : List UtilityMessageHandler

/-- The constructor: not elevated, and the printing handler when printing is
built in. -/
def AtomContentUtilityClient.new (printing_handler : Option UtilityMessageHandler) :
    AtomContentUtilityClient :=
  { utility_process_running_elevated := false
    handlers := printing_handler.toList }

/-- The Mojo interfaces added to a `BinderRegistry`. -/
inductive MojoInterface where
  | ResourceUsageReporter
  deriving DecidableEq, Repr

/-- The calls `UtilityThreadStarted` makes. -/
inductive UtilityEffect where
  /-- The call `extensions::utility_handler::UtilityThreadStarted()`. -/
  | ExtensionsUtilityThreadStarted
  /-- The call `connection->AddConnectionFilter(SimpleConnectionFilter(registry))`. -/
  | AddConnectionFilter (connection : Nat) (registry : List MojoInterface)
  deriving DecidableEq, Repr

/-- The method `UtilityThreadStarted()`. `enable_extensions` and `os_win` are the
build settings, `has_elevated_switch` is
`command_line->HasSwitch(kNoSandboxAndElevatedPrivileges)`, and `connection`
is `content::ChildThread::Get()->GetServiceManagerConnection()`. -/
def UtilityThreadStarted (enable_extensions os_win has_elevated_switch : Bool)
    (connection : Option Nat) (client : AtomContentUtilityClient) :
    AtomContentUtilityClient × List UtilityEffect :=
  let started : List UtilityEffect :=
    if enable_extensions then [UtilityEffect.ExtensionsUtilityThreadStarted] else []
  let client : AtomContentUtilityClient :=
    if os_win then { client with utility_process_running_elevated := has_elevated_switch }
    else client
  match connection with
  | none => (client, started)
  | some c =>
    let registry : List MojoInterface :=
      if !client.utility_process_running_elevated then [MojoInterface.ResourceUsageReporter]
      else []
    (client, started ++ [UtilityEffect.AddConnectionFilter c registry])

/-- The loop of `OnMessageReceived` over the handlers: whether one accepted, and
the tags of the handlers asked, in order. -/
def OnMessageReceived_loop (handlers : List UtilityMessageHandler) (message : Nat) :
    Bool × List Nat :=
  match handlers with
  | [] => (false, [])
  | handler :: rest =>
    if handler.OnMessageReceived message then (true, [handler.tag])
    else
      let r := OnMessageReceived_loop rest message
      (r.1, handler.tag :: r.2)

/-- The method `OnMessageReceived(message)`: its return value and the tags of the
handlers asked, in order. -/
def OnMessageReceived (client : AtomContentUtilityClient) (message : Nat) :
    Bool × List Nat :=
  if client.utility_process_running_elevated then (false, [])
  else OnMessageReceived_loop client.handlers message

/-! ## Sample values -/

/-- A path library for examples: the directory of a path is everything before
its last `/`, appending joins with `/`, the generated name is the suggested
name, and the preferred extension of a MIME type is what follows its `/`. -/
def PathLibrary.sample : PathLibrary :=
  { DirName := fun p => String.mk ((p.data.reverse.dropWhile (fun c => c != '/')).drop 1).reverse
    Append := fun d f => d ++ "/" ++ f
    GenerateFileName := fun _ _ _ suggested _ _ => suggested
    GetPreferredExtensionForMimeType := fun m =>
      some (String.mk (m.data.reverse.takeWhile (fun c => c != '/')).reverse) }

/-- A download for examples: in progress, not yet classified, of a file type
that is dangerous, with no safe-browsing state, no wrapper and no window. -/
def DownloadItem.sample : DownloadItem :=
  { id := 7
    state := DownloadState.IN_PROGRESS
    danger_type := DownloadDangerType.NOT_DANGEROUS
    danger_level := DangerLevel.DANGEROUS
    user_data := none
    content_checks := []
    web_contents := none
    wrapper := none
    forced_file_path := ""
    suggested_filename := "setup.exe"
    mime_type := "application/octet-stream"
    url := "https://example.org/setup.exe"
    content_disposition := ""
    removed := false }

/-- A safe-browsing service for examples, with its download protection service. -/
def SafeBrowsingService.sample : SafeBrowsingService :=
  { download_protection_service := some { handle := 1 } }

/-- The item `item` with a check in flight and `callback` pending. -/
def DownloadItem.inFlight (item : DownloadItem) (callback : Closure) : DownloadItem :=
  { item with user_data := some { is_complete := false, callback := some callback } }

/-- The events of a list of `IsDownloadReadyForCompletion` calls. -/
def readyCalls (callbacks : List Closure) : List CompletionEvent :=
  callbacks.map CompletionEvent.IsDownloadReadyForCompletion

/-- A service map for examples: one service, registered under the name
`proxy_resolver` with a factory of its own and no task runner. -/
def StaticServiceMap.sample : StaticServiceMap :=
  fun key =>
    if key = "proxy_resolver" then
      some { factory := some (ServiceFactory.other 0), task_runner := none }
    else none

/-- The empty service map. -/
def StaticServiceMap.empty : StaticServiceMap :=
  fun _ => none

/-- A download for examples that belongs to a window: the sample download, with
web contents whose relay has a native window. -/
def DownloadItem.sampleInWindow : DownloadItem :=
  { DownloadItem.sample with
    web_contents := some { relay := some { window := some { inspectable_web_contents := 11 } } } }

/-- A download for examples whose web contents have no relay, hence no native
window. -/
def DownloadItem.sampleNoRelay : DownloadItem :=
  { DownloadItem.sample with web_contents := some { relay := none } }

/-! ## The completion policy of `IsDownloadReadyForCompletion` -/

/-- C2: for an item with no safe-browsing state, `IsDownloadReadyForCompletion`
(a) with a protection service attaches a fresh state holding the callback,
starts one client-download check and returns false; (b) without one, when the
cached danger level is not NOT_DANGEROUS and the danger type is NOT_DANGEROUS
or MAYBE_DANGEROUS_CONTENT, marks the item DANGEROUS_FILE with reason
FILE_BLOCKED, posts the callback once and returns false; (c) otherwise returns
true and changes nothing. -/
theorem IsDownloadReadyForCompletion_three_way (sb_service : Option SafeBrowsingService)
    (item : DownloadItem) (callback : Closure) (h : item.user_data = none) :
    (∀ service, GetDownloadProtectionService sb_service = some service →
      IsDownloadReadyForCompletion sb_service item callback =
        { ready := false
          item := { item with
            user_data := some { is_complete := false, callback := some callback } }
          effects := [Effect.CheckClientDownload item.id] }) ∧
    (GetDownloadProtectionService sb_service = none →
      item.danger_level ≠ DangerLevel.NOT_DANGEROUS →
      (item.danger_type = DownloadDangerType.NOT_DANGEROUS ∨
        item.danger_type = DownloadDangerType.MAYBE_DANGEROUS_CONTENT) →
      IsDownloadReadyForCompletion sb_service item callback =
        { ready := false
          item := { item with
            danger_type := DownloadDangerType.DANGEROUS_FILE
            content_checks := item.content_checks ++
              [(DownloadDangerType.DANGEROUS_FILE, DownloadInterruptReason.FILE_BLOCKED)] }
          effects := [Effect.PostTask callback] }) ∧
    (GetDownloadProtectionService sb_service = none →
      ¬ (item.danger_level ≠ DangerLevel.NOT_DANGEROUS ∧
        (item.danger_type = DownloadDangerType.NOT_DANGEROUS ∨
          item.danger_type = DownloadDangerType.MAYBE_DANGEROUS_CONTENT)) →
      IsDownloadReadyForCompletion sb_service item callback =
        { ready := true, item := item, effects := [] }) := by
  refine ⟨?_, ?_, ?_⟩
  · intro service hs
    simp [IsDownloadReadyForCompletion, h, hs, SafeBrowsingState.new,
      SafeBrowsingState.set_callback, DownloadItem.SetUserData]
  · intro hs hl ht
    simp [IsDownloadReadyForCompletion, h, hs, hl, ht, DownloadItem.OnContentCheckCompleted]
  · intro hs hn
    simp only [IsDownloadReadyForCompletion, h, hs]
    rw [if_neg hn]

/-- C2, on the sample download: with the sample service a check is started,
and without a service the dangerous file type gets the item blocked. -/
theorem IsDownloadReadyForCompletion_three_way_witness :
    DownloadItem.sample.user_data = none ∧
    IsDownloadReadyForCompletion (some SafeBrowsingService.sample) DownloadItem.sample
        (Closure.host 3) =
      { ready := false
        item := { DownloadItem.sample with
          user_data := some { is_complete := false, callback := some (Closure.host 3) } }
        effects := [Effect.CheckClientDownload DownloadItem.sample.id] } ∧
    IsDownloadReadyForCompletion none DownloadItem.sample (Closure.host 3) =
      { ready := false
        item := { DownloadItem.sample with
          danger_type := DownloadDangerType.DANGEROUS_FILE
          content_checks := DownloadItem.sample.content_checks ++
            [(DownloadDangerType.DANGEROUS_FILE, DownloadInterruptReason.FILE_BLOCKED)] }
        effects := [Effect.PostTask (Closure.host 3)] } :=
  ⟨rfl,
   (IsDownloadReadyForCompletion_three_way (some SafeBrowsingService.sample)
      DownloadItem.sample (Closure.host 3) rfl).1 { handle := 1 } rfl,
   (IsDownloadReadyForCompletion_three_way none DownloadItem.sample (Closure.host 3) rfl).2.1
      rfl (by decide) (Or.inl rfl)⟩

/-- C3, as stated, fails: with no protection service, the sample download (no
safe-browsing state, a dangerous file type, not yet classified) is not
reported ready, and its danger type changes to DANGEROUS_FILE. -/
theorem IsDownloadReadyForCompletion_no_service_counterexample :
    GetDownloadProtectionService none = none ∧
    DownloadItem.sample.danger_type = DownloadDangerType.NOT_DANGEROUS ∧
    (IsDownloadReadyForCompletion none DownloadItem.sample (Closure.host 0)).ready = false ∧
    (IsDownloadReadyForCompletion none DownloadItem.sample (Closure.host 0)).item.danger_type =
      DownloadDangerType.DANGEROUS_FILE ∧
    ¬ ((IsDownloadReadyForCompletion none DownloadItem.sample (Closure.host 0)).ready = true ∧
      (IsDownloadReadyForCompletion none DownloadItem.sample (Closure.host 0)).item.danger_type =
        DownloadItem.sample.danger_type) := by
  decide

/-- C3, amended: with no protection service available,
`IsDownloadReadyForCompletion` returns true, changes nothing on the item and
makes no call, except in two cases, in which it returns false: the item has no
safe-browsing state, its cached danger level is not NOT_DANGEROUS and its
danger type is NOT_DANGEROUS or MAYBE_DANGEROUS_CONTENT (the item is then
marked DANGEROUS_FILE, with reason FILE_BLOCKED); or a safe-browsing state is
attached and not complete
(the danger type then stays as it is). -/
theorem IsDownloadReadyForCompletion_no_service (sb_service : Option SafeBrowsingService)
    (item : DownloadItem) (callback : Closure)
    (hs : GetDownloadProtectionService sb_service = none) :
    ((IsDownloadReadyForCompletion sb_service item callback).ready = true ↔
      ¬ (item.user_data = none ∧ item.danger_level ≠ DangerLevel.NOT_DANGEROUS ∧
          (item.danger_type = DownloadDangerType.NOT_DANGEROUS ∨
            item.danger_type = DownloadDangerType.MAYBE_DANGEROUS_CONTENT)) ∧
      ¬ (∃ state, item.user_data = some state ∧ state.is_complete = false)) ∧
    ((IsDownloadReadyForCompletion sb_service item callback).ready = true →
      IsDownloadReadyForCompletion sb_service item callback =
        { ready := true, item := item, effects := [] }) ∧
    ((item.user_data = none ∧ item.danger_level ≠ DangerLevel.NOT_DANGEROUS ∧
        (item.danger_type = DownloadDangerType.NOT_DANGEROUS ∨
          item.danger_type = DownloadDangerType.MAYBE_DANGEROUS_CONTENT)) →
      (IsDownloadReadyForCompletion sb_service item callback).item.danger_type =
        DownloadDangerType.DANGEROUS_FILE ∧
      (IsDownloadReadyForCompletion sb_service item callback).item.content_checks =
        item.content_checks ++
          [(DownloadDangerType.DANGEROUS_FILE, DownloadInterruptReason.FILE_BLOCKED)]) ∧
    ((∃ state, item.user_data = some state ∧ state.is_complete = false) →
      (IsDownloadReadyForCompletion sb_service item callback).item.danger_type =
        item.danger_type) := by
  cases hu : item.user_data with
  | none =>
    by_cases hc : item.danger_level ≠ DangerLevel.NOT_DANGEROUS ∧
        (item.danger_type = DownloadDangerType.NOT_DANGEROUS ∨
          item.danger_type = DownloadDangerType.MAYBE_DANGEROUS_CONTENT)
    · have e : IsDownloadReadyForCompletion sb_service item callback =
          { ready := false
            item := item.OnContentCheckCompleted DownloadDangerType.DANGEROUS_FILE
              DownloadInterruptReason.FILE_BLOCKED
            effects := [Effect.PostTask callback] } := by
        simp only [IsDownloadReadyForCompletion, hu, hs]
        rw [if_pos hc]
      rw [e]
      simp [hc, DownloadItem.OnContentCheckCompleted]
    · have e : IsDownloadReadyForCompletion sb_service item callback =
          { ready := true, item := item, effects := [] } := by
        simp only [IsDownloadReadyForCompletion, hu, hs]
        rw [if_neg hc]
      rw [e]
      simp [hc]
  | some state =>
    cases hcomp : state.is_complete with
    | false =>
      have e : IsDownloadReadyForCompletion sb_service item callback =
          { ready := false
            item := item.SetUserData (state.set_callback callback)
            effects := [] } := by
        simp [IsDownloadReadyForCompletion, hu, hcomp]
      rw [e]
      simp [hcomp, DownloadItem.SetUserData]
    | true =>
      have e : IsDownloadReadyForCompletion sb_service item callback =
          { ready := true, item := item, effects := [] } := by
        simp [IsDownloadReadyForCompletion, hu, hcomp]
      rw [e]
      simp [hcomp]

/-- C3, amended, on a download of a harmless file type: with no safe-browsing
service at all it is ready, and nothing about it changes. -/
theorem IsDownloadReadyForCompletion_no_service_witness :
    GetDownloadProtectionService none = none ∧
    IsDownloadReadyForCompletion none
        { DownloadItem.sample with danger_level := DangerLevel.NOT_DANGEROUS }
        (Closure.host 0) =
      { ready := true
        item := { DownloadItem.sample with danger_level := DangerLevel.NOT_DANGEROUS }
        effects := [] } :=
  ⟨rfl,
   (IsDownloadReadyForCompletion_no_service none
      { DownloadItem.sample with danger_level := DangerLevel.NOT_DANGEROUS }
      (Closure.host 0) rfl).2.1
     ((IsDownloadReadyForCompletion_no_service none
      { DownloadItem.sample with danger_level := DangerLevel.NOT_DANGEROUS }
      (Closure.host 0) rfl).1.mpr (by decide))⟩

/-! ## The URL check -/

/-- C4: the danger type `CheckDownloadUrl` delivers to its callback is
NOT_DANGEROUS exactly when the protection service is absent or its verdict is
SAFE or UNKNOWN, and DANGEROUS_URL for every other verdict; the callback is
run exactly once per verdict (`CheckDownloadUrlDone` makes that one call and no
other), and with the service absent it is run exactly once, synchronously,
with nothing asked of any service. -/
theorem CheckDownloadUrl_verdict (sb_service : Option SafeBrowsingService)
    (download : DownloadItem) (suggested_path : FilePath) (callback : Nat)
    (verdict : DownloadCheckResult) :
    (∃ danger_type,
      dangerTypesDelivered callback
          (CheckDownloadUrlSession sb_service download suggested_path callback verdict) =
        [danger_type] ∧
      (danger_type = DownloadDangerType.NOT_DANGEROUS ↔
        (GetDownloadProtectionService sb_service = none ∨
          verdict = DownloadCheckResult.SAFE ∨ verdict = DownloadCheckResult.UNKNOWN)) ∧
      (danger_type ≠ DownloadDangerType.NOT_DANGEROUS →
        danger_type = DownloadDangerType.DANGEROUS_URL)) ∧
    CheckDownloadUrlDone callback verdict =
      [Effect.RunCheckDownloadUrlCallback callback
        (if verdict = DownloadCheckResult.SAFE ∨ verdict = DownloadCheckResult.UNKNOWN then
          DownloadDangerType.NOT_DANGEROUS
        else DownloadDangerType.DANGEROUS_URL)] ∧
    (GetDownloadProtectionService sb_service = none →
      CheckDownloadUrl sb_service download suggested_path callback =
        [Effect.RunCheckDownloadUrlCallback callback DownloadDangerType.NOT_DANGEROUS]) ∧
    (∀ service, GetDownloadProtectionService sb_service = some service →
      CheckDownloadUrl sb_service download suggested_path callback =
        [Effect.ServiceCheckDownloadUrl download.id callback]) := by
  refine ⟨?_, ?_, ?_, ?_⟩
  · cases hs : GetDownloadProtectionService sb_service with
    | none =>
      refine ⟨DownloadDangerType.NOT_DANGEROUS, ?_, ?_, ?_⟩
      · simp [dangerTypesDelivered, CheckDownloadUrlSession, CheckDownloadUrl, hs]
      · simp
      · simp
    | some service =>
      by_cases hv : verdict = DownloadCheckResult.SAFE ∨ verdict = DownloadCheckResult.UNKNOWN
      · refine ⟨DownloadDangerType.NOT_DANGEROUS, ?_, ?_, ?_⟩
        · simp [dangerTypesDelivered, CheckDownloadUrlSession, CheckDownloadUrl, hs,
            CheckDownloadUrlDone, hv]
        · simp [hv]
        · simp
      · refine ⟨DownloadDangerType.DANGEROUS_URL, ?_, ?_, ?_⟩
        · simp [dangerTypesDelivered, CheckDownloadUrlSession, CheckDownloadUrl, hs,
            CheckDownloadUrlDone, hv]
        · simp [hv]
        · simp
  · by_cases hv : verdict = DownloadCheckResult.SAFE ∨ verdict = DownloadCheckResult.UNKNOWN
    · simp [CheckDownloadUrlDone, hv]
    · simp [CheckDownloadUrlDone, hv]
  · intro hs
    simp [CheckDownloadUrl, hs]
  · intro service hs
    simp [CheckDownloadUrl, hs]

/-- C4, on the sample download: without a service the callback gets
NOT_DANGEROUS at once, and with the sample service a DANGEROUS verdict is
delivered as DANGEROUS_URL. -/
theorem CheckDownloadUrl_verdict_witness :
    GetDownloadProtectionService none = none ∧
    CheckDownloadUrl none DownloadItem.sample "setup.exe" 5 =
      [Effect.RunCheckDownloadUrlCallback 5 DownloadDangerType.NOT_DANGEROUS] ∧
    dangerTypesDelivered 5
        (CheckDownloadUrlSession (some SafeBrowsingService.sample) DownloadItem.sample
          "setup.exe" 5 DownloadCheckResult.DANGEROUS) =
      [DownloadDangerType.DANGEROUS_URL] :=
  ⟨rfl,
   (CheckDownloadUrl_verdict none DownloadItem.sample "setup.exe" 5
      DownloadCheckResult.DANGEROUS).2.2.1 rfl,
   by decide⟩

/-! ## The answer to the client-download check -/

/-- C10: for an in-progress item, `CheckClientDownloadDone` marks the item
DANGEROUS_FILE with reason FILE_BLOCKED exactly when its danger type is
NOT_DANGEROUS or MAYBE_DANGEROUS_CONTENT and the verdict is UNKNOWN with a
danger level other than NOT_DANGEROUS, or SAFE with danger level DANGEROUS, or
neither SAFE nor UNKNOWN; otherwise danger type and recorded content checks
stay as they are. The danger type computed is never MAYBE_DANGEROUS_CONTENT,
and the `DCHECK_NE` never fails. With no item, or an item not in progress,
nothing changes, no callback is run and the pending state is not completed. -/
theorem CheckClientDownloadDone_marks (download_manager : Nat → Option DownloadItem)
    (download_id : Nat) (result : DownloadCheckResult) :
    (∀ item, download_manager download_id = some item →
      item.state = DownloadState.IN_PROGRESS →
      ∃ after, (CheckClientDownloadDone download_manager download_id result).item = some after ∧
        (((item.danger_type = DownloadDangerType.NOT_DANGEROUS ∨
            item.danger_type = DownloadDangerType.MAYBE_DANGEROUS_CONTENT) ∧
          ((result = DownloadCheckResult.UNKNOWN ∧
              item.danger_level ≠ DangerLevel.NOT_DANGEROUS) ∨
            (result = DownloadCheckResult.SAFE ∧ item.danger_level = DangerLevel.DANGEROUS) ∨
            (result ≠ DownloadCheckResult.SAFE ∧ result ≠ DownloadCheckResult.UNKNOWN))) →
          after.danger_type = DownloadDangerType.DANGEROUS_FILE ∧
          after.content_checks = item.content_checks ++
            [(DownloadDangerType.DANGEROUS_FILE, DownloadInterruptReason.FILE_BLOCKED)]) ∧
        (¬ ((item.danger_type = DownloadDangerType.NOT_DANGEROUS ∨
            item.danger_type = DownloadDangerType.MAYBE_DANGEROUS_CONTENT) ∧
          ((result = DownloadCheckResult.UNKNOWN ∧
              item.danger_level ≠ DangerLevel.NOT_DANGEROUS) ∨
            (result = DownloadCheckResult.SAFE ∧ item.danger_level = DangerLevel.DANGEROUS) ∨
            (result ≠ DownloadCheckResult.SAFE ∧ result ≠ DownloadCheckResult.UNKNOWN))) →
          after.danger_type = item.danger_type ∧
          after.content_checks = item.content_checks)) ∧
    (∀ danger_level, CheckClientDownloadDone_danger_type result danger_level ≠
      DownloadDangerType.MAYBE_DANGEROUS_CONTENT) ∧
    (CheckClientDownloadDone download_manager download_id result).dcheck_failed = false ∧
    (download_manager download_id = none →
      CheckClientDownloadDone download_manager download_id result =
        { item := none, effects := [], crashed := false, dcheck_failed := false }) ∧
    (∀ item, download_manager download_id = some item →
      item.state ≠ DownloadState.IN_PROGRESS →
      CheckClientDownloadDone download_manager download_id result =
        { item := some item, effects := [], crashed := false, dcheck_failed := false }) := by
  have hne : ∀ danger_level, CheckClientDownloadDone_danger_type result danger_level ≠
      DownloadDangerType.MAYBE_DANGEROUS_CONTENT := by
    intro danger_level
    cases result <;> cases danger_level <;> decide
  refine ⟨?_, hne, ?_, ?_, ?_⟩
  · intro item hi hp
    cases hu : item.user_data <;> cases hd : item.danger_type <;>
      cases hl : item.danger_level <;> cases result <;>
      simp [CheckClientDownloadDone, hi, hp, hu, hd, hl, CheckClientDownloadDone_danger_type,
        DownloadItem.OnContentCheckCompleted, DownloadItem.SetUserData]
  · cases hi : download_manager download_id with
    | none => simp [CheckClientDownloadDone, hi]
    | some item =>
      by_cases hp : item.state = DownloadState.IN_PROGRESS
      · cases hu : item.user_data <;> cases hd : item.danger_type <;>
          cases hl : item.danger_level <;> cases result <;>
          simp [CheckClientDownloadDone, hi, hp, hu, hd, hl,
            CheckClientDownloadDone_danger_type, DownloadItem.OnContentCheckCompleted,
            DownloadItem.SetUserData]
      · simp [CheckClientDownloadDone, hi, hp]
  · intro hi
    simp [CheckClientDownloadDone, hi]
  · intro item hi hp
    simp [CheckClientDownloadDone, hi, hp]

/-- C10, on the sample download with a check in flight: an UNKNOWN verdict on
its dangerous file type marks it DANGEROUS_FILE with reason FILE_BLOCKED. -/
theorem CheckClientDownloadDone_marks_witness :
    ∃ after,
      (CheckClientDownloadDone
        (fun id => if id = 7 then some (DownloadItem.sample.inFlight (Closure.host 1)) else none)
        7 DownloadCheckResult.UNKNOWN).item = some after ∧
      after.danger_type = DownloadDangerType.DANGEROUS_FILE ∧
      after.content_checks =
        [(DownloadDangerType.DANGEROUS_FILE, DownloadInterruptReason.FILE_BLOCKED)] := by
  obtain ⟨after, h1, h2, _⟩ := (CheckClientDownloadDone_marks
    (fun id => if id = 7 then some (DownloadItem.sample.inFlight (Closure.host 1)) else none)
    7 DownloadCheckResult.UNKNOWN).1 (DownloadItem.sample.inFlight (Closure.host 1)) rfl rfl
  exact ⟨after, h1, h2 (by decide)⟩

/-! ## The save dialog and the target callback -/

/-- C7: `OnDownloadItemSelectionCancelled` removes the item and runs the target
callback exactly once, with an empty target path, an empty intermediate path,
disposition PROMPT, danger type NOT_DANGEROUS and reason USER_CANCELED; the
default download directory preference, like the rest of the item, stays as it
is. -/
theorem OnDownloadItemSelectionCancelled_cancels (prefs : Prefs) (callback : Nat)
    (item : DownloadItem) :
    OnDownloadItemSelectionCancelled prefs callback item =
      { prefs := prefs
        item := { item with removed := true }
        effects := [Effect.RunTargetCallback callback ""
          TargetDisposition.TARGET_DISPOSITION_PROMPT DownloadDangerType.NOT_DANGEROUS ""
          DownloadInterruptReason.USER_CANCELED] } := by
  rfl

/-- C8: for a non-empty list of selected paths, `OnDownloadItemSelected` sets the
default download directory preference to the directory name of the first path
and runs the callback once with that first path as target and intermediate
path, NOT_DANGEROUS and reason NONE; a later `DetermineDownloadTarget` on a
download with an empty forced path starts the target determiner on that
directory with the generated file name appended. -/
theorem OnDownloadItemSelected_remembers_directory (lib : PathLibrary) (prefs : Prefs)
    (callback : Nat) (download_item : Option ApiDownloadItem) (path0 : FilePath)
    (rest : List FilePath) :
    (OnDownloadItemSelected lib prefs callback download_item (path0 :: rest)).prefs =
      { download_default_directory := lib.DirName path0 } ∧
    (OnDownloadItemSelected lib prefs callback download_item (path0 :: rest)).effects =
      [Effect.RunTargetCallback callback path0 TargetDisposition.TARGET_DISPOSITION_PROMPT
        DownloadDangerType.NOT_DANGEROUS path0 DownloadInterruptReason.NONE] ∧
    (OnDownloadItemSelected lib prefs callback download_item (path0 :: rest)).crashed = false ∧
    (∀ (download : DownloadItem) (later : Nat), download.forced_file_path = "" →
      DetermineDownloadTarget lib
          (OnDownloadItemSelected lib prefs callback download_item (path0 :: rest)).prefs
          download later =
        (true, [Effect.DownloadTargetDeterminerStart download.id
          (lib.Append (lib.DirName path0)
            (lib.GenerateFileName download.url download.content_disposition ""
              (if download.suggested_filename = "" ∧
                  download.mime_type = "application/x-x509-user-cert" then "user.crt"
                else download.suggested_filename)
              download.mime_type ""))
          FilenameConflictAction.UNIQUIFY later])) := by
  refine ⟨rfl, rfl, rfl, ?_⟩
  intro download later hf
  simp [DetermineDownloadTarget, DetermineDownloadTarget_virtual_path, hf,
    OnDownloadItemSelected, kDefaultPlatformConflictAction]

/-- C8, on the sample download: after `/home/me/files/a.txt` is selected, the
next download is aimed at `/home/me/files/setup.exe`. -/
theorem OnDownloadItemSelected_remembers_directory_witness :
    DownloadItem.sample.forced_file_path = "" ∧
    DetermineDownloadTarget PathLibrary.sample
        (OnDownloadItemSelected PathLibrary.sample { download_default_directory := "/tmp" } 1
          none ["/home/me/files/a.txt"]).prefs
        DownloadItem.sample 2 =
      (true, [Effect.DownloadTargetDeterminerStart 7 "/home/me/files/setup.exe"
        FilenameConflictAction.UNIQUIFY 2]) :=
  ⟨rfl,
   ((OnDownloadItemSelected_remembers_directory PathLibrary.sample
      { download_default_directory := "/tmp" } 1 none "/home/me/files/a.txt" []).2.2.2
      DownloadItem.sample 2 rfl).trans (by decide)⟩

/-- What `OnDownloadTargetDetermined` does for an existing item, by the path it
ends up with and by the window: the callback is run on a non-empty path, a
null window is dereferenced on an empty one, and a dialog is opened on an empty
path with a window. -/
theorem OnDownloadTargetDetermined_effects (lib : PathLibrary)
    (download_manager : Nat → Option DownloadItem) (download_id : Nat) (callback : Nat)
    (target_info : DownloadTargetInfo) (item : DownloadItem)
    (hi : download_manager download_id = some item) :
    (GetItemSavePath item target_info.target_path ≠ "" →
      (OnDownloadTargetDetermined lib download_manager download_id callback target_info).effects =
        [Effect.RunTargetCallback callback (GetItemSavePath item target_info.target_path)
          TargetDisposition.TARGET_DISPOSITION_PROMPT target_info.danger_type
          (GetItemSavePath item target_info.target_path) target_info.result] ∧
      (OnDownloadTargetDetermined lib download_manager download_id callback
        target_info).crashed = false) ∧
    (GetItemSavePath item target_info.target_path = "" →
      OnDownloadTargetDetermined_window item = none →
      (OnDownloadTargetDetermined lib download_manager download_id callback target_info).effects =
        [] ∧
      (OnDownloadTargetDetermined lib download_manager download_id callback
        target_info).crashed = true) ∧
    (GetItemSavePath item target_info.target_path = "" →
      ∀ w, OnDownloadTargetDetermined_window item = some w →
      (∃ info, (OnDownloadTargetDetermined lib download_manager download_id callback
          target_info).effects =
        [Effect.FileEntryPicker w.inspectable_web_contents "" info callback item.id]) ∧
      (OnDownloadTargetDetermined lib download_manager download_id callback
        target_info).crashed = false) := by
  cases hw : item.wrapper with
  | none =>
    have hp : GetItemSavePath item target_info.target_path = target_info.target_path := by
      simp [GetItemSavePath, hw]
    rw [hp]
    refine ⟨?_, ?_, ?_⟩
    · intro hne
      simp [OnDownloadTargetDetermined, hi, hw, GetItemSavePath,
        DownloadItem.OnContentCheckCompleted, ApiDownloadItem.Create, hne]
    · intro he hwin
      simp [OnDownloadTargetDetermined_window] at hwin
      simp [OnDownloadTargetDetermined, hi, hw, GetItemSavePath,
        DownloadItem.OnContentCheckCompleted, ApiDownloadItem.Create, he,
        OnDownloadTargetDetermined_window, hwin]
    · intro he w hwin
      simp [OnDownloadTargetDetermined_window] at hwin
      simp [OnDownloadTargetDetermined, hi, hw, GetItemSavePath,
        DownloadItem.OnContentCheckCompleted, ApiDownloadItem.Create, he,
        OnDownloadTargetDetermined_window, hwin]
  | some d =>
    refine ⟨?_, ?_, ?_⟩
    · intro hne
      simp [GetItemSavePath, hw] at hne
      simp [OnDownloadTargetDetermined, hi, hw, GetItemSavePath,
        DownloadItem.OnContentCheckCompleted, hne]
    · intro he hwin
      simp [GetItemSavePath, hw] at he
      simp [OnDownloadTargetDetermined_window] at hwin
      simp [OnDownloadTargetDetermined, hi, hw, GetItemSavePath,
        DownloadItem.OnContentCheckCompleted, he,
        OnDownloadTargetDetermined_window, hwin]
    · intro he w hwin
      simp [GetItemSavePath, hw] at he
      simp [OnDownloadTargetDetermined_window] at hwin
      simp [OnDownloadTargetDetermined, hi, hw, GetItemSavePath,
        DownloadItem.OnContentCheckCompleted, he,
        OnDownloadTargetDetermined_window, hwin]

/-- C5, as stated, fails: the list of selected paths `[""]` is not empty, and
`OnDownloadItemSelected` runs the callback with reason NONE and an empty
target path. -/
theorem OnDownloadItemSelected_empty_first_path_counterexample :
    [""] ≠ ([] : List FilePath) ∧
    (OnDownloadItemSelected PathLibrary.sample { download_default_directory := "/tmp" } 1
        none [""]).crashed = false ∧
    Effect.RunTargetCallback 1 "" TargetDisposition.TARGET_DISPOSITION_PROMPT
        DownloadDangerType.NOT_DANGEROUS "" DownloadInterruptReason.NONE ∈
      (OnDownloadItemSelected PathLibrary.sample { download_default_directory := "/tmp" } 1
        none [""]).effects := by
  decide

/-- C5, amended: whenever the delegate runs the download target callback with
reason NONE, from `OnDownloadItemSelected` given a list of selected paths whose
first path is non-empty, or from `OnDownloadTargetDetermined`, the target path
it passes is non-empty. -/
theorem target_callback_success_path_nonempty (lib : PathLibrary) (prefs : Prefs)
    (callback : Nat) (download_item : Option ApiDownloadItem) (path0 : FilePath)
    (rest : List FilePath) (download_manager : Nat → Option DownloadItem)
    (download_id : Nat) (target_info : DownloadTargetInfo) :
    (path0 ≠ "" → ∀ c target_path disposition danger_type intermediate_path,
      Effect.RunTargetCallback c target_path disposition danger_type intermediate_path
          DownloadInterruptReason.NONE ∈
        (OnDownloadItemSelected lib prefs callback download_item (path0 :: rest)).effects →
      target_path ≠ "") ∧
    (∀ c target_path disposition danger_type intermediate_path,
      Effect.RunTargetCallback c target_path disposition danger_type intermediate_path
          DownloadInterruptReason.NONE ∈
        (OnDownloadTargetDetermined lib download_manager download_id callback
          target_info).effects →
      target_path ≠ "") := by
  constructor
  · intro h0 c target_path disposition danger_type intermediate_path hmem
    simp [OnDownloadItemSelected] at hmem
    rw [hmem.2.1]
    exact h0
  · intro c target_path disposition danger_type intermediate_path hmem
    cases hi : download_manager download_id with
    | none => simp [OnDownloadTargetDetermined, hi] at hmem
    | some item =>
      have h := OnDownloadTargetDetermined_effects lib download_manager download_id callback
        target_info item hi
      by_cases hp : GetItemSavePath item target_info.target_path = ""
      · cases hw : OnDownloadTargetDetermined_window item with
        | none =>
          rw [(h.2.1 hp hw).1] at hmem
          simp at hmem
        | some w =>
          obtain ⟨info, he⟩ := (h.2.2 hp w hw).1
          rw [he] at hmem
          simp at hmem
      · rw [(h.1 hp).1] at hmem
        simp at hmem
        rw [hmem.2.1]
        exact hp

/-- C5, amended, on one selection: `/home/me/a.txt` is selected, and the
callback gets that non-empty path. -/
theorem target_callback_success_path_nonempty_witness :
    ("/home/me/a.txt" : FilePath) ≠ "" ∧
    Effect.RunTargetCallback 1 "/home/me/a.txt" TargetDisposition.TARGET_DISPOSITION_PROMPT
        DownloadDangerType.NOT_DANGEROUS "/home/me/a.txt" DownloadInterruptReason.NONE ∈
      (OnDownloadItemSelected PathLibrary.sample { download_default_directory := "/tmp" } 1
        none ["/home/me/a.txt"]).effects ∧
    ("/home/me/a.txt" : FilePath) ≠ "" :=
  ⟨by decide, by decide,
   (target_callback_success_path_nonempty PathLibrary.sample
      { download_default_directory := "/tmp" } 1 none "/home/me/a.txt" []
      (fun _ => none) 0
      { target_path := "", danger_type := DownloadDangerType.NOT_DANGEROUS,
        result := DownloadInterruptReason.NONE }).1 (by decide) 1 "/home/me/a.txt"
      TargetDisposition.TARGET_DISPOSITION_PROMPT DownloadDangerType.NOT_DANGEROUS
      "/home/me/a.txt" (by decide)⟩

/-- C6: the item is the sample download, which has no save path of its own and
no web contents, and the target path determined is empty. No early return
guards the null window: `OnDownloadTargetDetermined` dereferences it, after
having recorded the content check and created the wrapper, and before any
file picker is opened or callback run. -/
theorem OnDownloadTargetDetermined_no_window_crashes :
    GetItemSavePath DownloadItem.sample "" = "" ∧
    OnDownloadTargetDetermined_window DownloadItem.sample = none ∧
    (OnDownloadTargetDetermined PathLibrary.sample
        (fun id => if id = 7 then some DownloadItem.sample else none) 7 1
        { target_path := "", danger_type := DownloadDangerType.NOT_DANGEROUS,
          result := DownloadInterruptReason.NONE }).crashed = true ∧
    (OnDownloadTargetDetermined PathLibrary.sample
        (fun id => if id = 7 then some DownloadItem.sample else none) 7 1
        { target_path := "", danger_type := DownloadDangerType.NOT_DANGEROUS,
          result := DownloadInterruptReason.NONE }).effects = [] := by
  decide

/-! ## The utility client -/

/-- C9, as stated, fails: on a map that already has an entry named by the proxy
resolver service name, `RegisterServices` keeps that entry, so the result has
no entry under that name with the IO task runner and the proxy resolver
factory. -/
theorem RegisterServices_present_name_counterexample :
    RegisterServices "proxy_resolver" "profile_import" 9 StaticServiceMap.sample
        "proxy_resolver" =
      some { factory := some (ServiceFactory.other 0), task_runner := none } ∧
    RegisterServices "proxy_resolver" "profile_import" 9 StaticServiceMap.sample
        "proxy_resolver" ≠
      some { factory := some ServiceFactory.ProxyResolverService_CreateService
             task_runner := some 9 } := by
  decide

/-- C9, amended: `RegisterServices` leaves every entry already in the map
unchanged, and every name other than the two service names as it was; when the
map has no entry under the proxy resolver service name it adds one with the IO
task runner and the proxy resolver factory, and when it has none under the
(different) profile import service name it adds one with the profile import
factory; applied to the empty map the result holds exactly these two
entries. -/
theorem RegisterServices_adds (kProxyResolverServiceName kProfileImportServiceName : String)
    (io_task_runner : Nat) (services : StaticServiceMap)
    (hne : kProxyResolverServiceName ≠ kProfileImportServiceName) :
    (∀ name info, services name = some info →
      RegisterServices kProxyResolverServiceName kProfileImportServiceName io_task_runner
        services name = some info) ∧
    (∀ name, name ≠ kProxyResolverServiceName → name ≠ kProfileImportServiceName →
      RegisterServices kProxyResolverServiceName kProfileImportServiceName io_task_runner
        services name = services name) ∧
    (services kProxyResolverServiceName = none →
      RegisterServices kProxyResolverServiceName kProfileImportServiceName io_task_runner
        services kProxyResolverServiceName =
          some { factory := some ServiceFactory.ProxyResolverService_CreateService
                 task_runner := some io_task_runner }) ∧
    (services kProfileImportServiceName = none →
      RegisterServices kProxyResolverServiceName kProfileImportServiceName io_task_runner
        services kProfileImportServiceName =
          some { factory := some ServiceFactory.BraveProfileImportService_CreateService
                 task_runner := none }) ∧
    (∀ name,
      RegisterServices kProxyResolverServiceName kProfileImportServiceName io_task_runner
        StaticServiceMap.empty name =
        if name = kProxyResolverServiceName then
          some { factory := some ServiceFactory.ProxyResolverService_CreateService
                 task_runner := some io_task_runner }
        else if name = kProfileImportServiceName then
          some { factory := some ServiceFactory.BraveProfileImportService_CreateService
                 task_runner := none }
        else none) := by
  have hne2 : kProfileImportServiceName ≠ kProxyResolverServiceName := fun h => hne h.symm
  refine ⟨?_, ?_, ?_, ?_, ?_⟩
  · intro name info h
    by_cases h1 : name = kProfileImportServiceName
    · subst h1
      simp [RegisterServices, StaticServiceMap.emplace, hne2, h]
    · by_cases h2 : name = kProxyResolverServiceName
      · subst h2
        simp [RegisterServices, StaticServiceMap.emplace, h1, h]
      · simp [RegisterServices, StaticServiceMap.emplace, h1, h2, h]
  · intro name h1 h2
    simp [RegisterServices, StaticServiceMap.emplace, h1, h2]
  · intro h
    simp [RegisterServices, StaticServiceMap.emplace, hne, h]
  · intro h
    simp [RegisterServices, StaticServiceMap.emplace, hne2, h]
  · intro name
    by_cases h1 : name = kProfileImportServiceName
    · subst h1
      simp [RegisterServices, StaticServiceMap.emplace, hne2, StaticServiceMap.empty]
    · by_cases h2 : name = kProxyResolverServiceName
      · subst h2
        simp [RegisterServices, StaticServiceMap.emplace, h1, StaticServiceMap.empty]
      · simp [RegisterServices, StaticServiceMap.emplace, h1, h2, StaticServiceMap.empty]

/-- C9, amended, on the sample map: its own entry stays, and the profile import
entry is added. -/
theorem RegisterServices_adds_witness :
    ("proxy_resolver" : String) ≠ "profile_import" ∧
    StaticServiceMap.sample "profile_import" = none ∧
    RegisterServices "proxy_resolver" "profile_import" 9 StaticServiceMap.sample
        "profile_import" =
      some { factory := some ServiceFactory.BraveProfileImportService_CreateService
             task_runner := none } :=
  ⟨by decide, by decide,
   (RegisterServices_adds "proxy_resolver" "profile_import" 9 StaticServiceMap.sample
      (by decide)).2.2.2.1 (by decide)⟩

/-- C12: `UtilityThreadStarted` hands over a registry holding the resource usage
reporter interface exactly when there is a service manager connection and the
process is not running elevated; `OnMessageReceived` returns true exactly when
the process is not running elevated and some handler accepts the message; an
elevated process asks no handler; otherwise the handlers are asked in order, up
to and including the first that accepts, and all of them when none accepts. -/
theorem elevated_exposes_nothing (enable_extensions os_win has_elevated_switch : Bool)
    (connection : Option Nat) (client : AtomContentUtilityClient) (message : Nat) :
    ((∃ c registry, UtilityEffect.AddConnectionFilter c registry ∈
          (UtilityThreadStarted enable_extensions os_win has_elevated_switch connection
            client).2 ∧
        MojoInterface.ResourceUsageReporter ∈ registry) ↔
      (connection.isSome = true ∧
        (UtilityThreadStarted enable_extensions os_win has_elevated_switch connection
          client).1.utility_process_running_elevated = false)) ∧
    ((UtilityThreadStarted enable_extensions os_win has_elevated_switch connection
        client).1.utility_process_running_elevated =
      if os_win then has_elevated_switch else client.utility_process_running_elevated) ∧
    ((OnMessageReceived client message).1 = true ↔
      (client.utility_process_running_elevated = false ∧
        ∃ handler ∈ client.handlers, handler.OnMessageReceived message = true)) ∧
    (client.utility_process_running_elevated = true →
      OnMessageReceived client message = (false, [])) ∧
    (client.utility_process_running_elevated = false →
      ∀ before handler after, client.handlers = before ++ handler :: after →
        (∀ h ∈ before, h.OnMessageReceived message = false) →
        handler.OnMessageReceived message = true →
        OnMessageReceived client message =
          (true, (before ++ [handler]).map UtilityMessageHandler.tag)) ∧
    (client.utility_process_running_elevated = false →
      (∀ h ∈ client.handlers, h.OnMessageReceived message = false) →
      OnMessageReceived client message =
        (false, client.handlers.map UtilityMessageHandler.tag)) := by
  have loop_true : ∀ hs : List UtilityMessageHandler,
      (OnMessageReceived_loop hs message).1 = true ↔
        ∃ handler ∈ hs, handler.OnMessageReceived message = true := by
    intro hs
    induction hs with
    | nil => simp [OnMessageReceived_loop]
    | cons x xs ih =>
      by_cases hx : x.OnMessageReceived message = true
      · simp [OnMessageReceived_loop, hx]
      · simp [OnMessageReceived_loop, hx, ih]
  have loop_none : ∀ hs : List UtilityMessageHandler,
      (∀ h ∈ hs, h.OnMessageReceived message = false) →
      OnMessageReceived_loop hs message = (false, hs.map UtilityMessageHandler.tag) := by
    intro hs
    induction hs with
    | nil => simp [OnMessageReceived_loop]
    | cons x xs ih =>
      intro hall
      have hx : x.OnMessageReceived message = false := hall x (List.mem_cons_self _ _)
      have hr := ih (fun h hh => hall h (List.mem_cons_of_mem _ hh))
      simp [OnMessageReceived_loop, hx, hr]
  have loop_first : ∀ before handler after,
      (∀ h ∈ before, h.OnMessageReceived message = false) →
      handler.OnMessageReceived message = true →
      OnMessageReceived_loop (before ++ handler :: after) message =
        (true, (before ++ [handler]).map UtilityMessageHandler.tag) := by
    intro before handler after
    induction before with
    | nil =>
      intro _ hh
      simp [OnMessageReceived_loop, hh]
    | cons x xs ih =>
      intro hall hh
      have hx : x.OnMessageReceived message = false := hall x (List.mem_cons_self _ _)
      have hr := ih (fun h hm => hall h (List.mem_cons_of_mem _ hm)) hh
      simp [OnMessageReceived_loop, hx, hr]
  refine ⟨?_, ?_, ?_, ?_, ?_, ?_⟩
  · cases connection <;> cases os_win <;> cases has_elevated_switch <;>
      cases he : client.utility_process_running_elevated <;> cases enable_extensions <;>
      simp [UtilityThreadStarted, he] <;>
      exact ⟨_, _, ⟨rfl, rfl⟩, List.mem_singleton.mpr rfl⟩
  · cases connection <;> cases os_win <;> simp [UtilityThreadStarted]
  · cases he : client.utility_process_running_elevated
    · simp [OnMessageReceived, he, loop_true]
    · simp [OnMessageReceived, he]
  · intro he
    simp [OnMessageReceived, he]
  · intro he before handler after hsplit hall hh
    simp only [OnMessageReceived, he, hsplit]
    exact loop_first before handler after hall hh
  · intro he hall
    simp only [OnMessageReceived, he]
    exact loop_none client.handlers hall

/-- C12, on one client: two handlers, the second of which accepts message 4;
not elevated, both are asked and the message is handled. -/
theorem elevated_exposes_nothing_witness :
    OnMessageReceived
        { utility_process_running_elevated := false
          handlers := [{ tag := 1, OnMessageReceived := fun _ => false },
                       { tag := 2, OnMessageReceived := fun m => m == 4 },
                       { tag := 3, OnMessageReceived := fun _ => true }] } 4 =
      (true, [1, 2]) :=
  (elevated_exposes_nothing false false false none
      { utility_process_running_elevated := false
        handlers := [{ tag := 1, OnMessageReceived := fun _ => false },
                     { tag := 2, OnMessageReceived := fun m => m == 4 },
                     { tag := 3, OnMessageReceived := fun _ => true }] } 4).2.2.2.2.1 rfl
    [{ tag := 1, OnMessageReceived := fun _ => false }]
    { tag := 2, OnMessageReceived := fun m => m == 4 }
    [{ tag := 3, OnMessageReceived := fun _ => true }] rfl (by simp) rfl

/-! ## The completion check over time -/

/-- A call of `IsDownloadReadyForCompletion` on an item whose check is still in
flight only replaces the pending callback. -/
theorem IsDownloadReadyForCompletion_inFlight (sb_service : Option SafeBrowsingService)
    (item : DownloadItem) (pending callback : Closure) :
    IsDownloadReadyForCompletion sb_service (item.inFlight pending) callback =
      { ready := false, item := item.inFlight callback, effects := [] } := by
  simp [IsDownloadReadyForCompletion, DownloadItem.inFlight, DownloadItem.SetUserData,
    SafeBrowsingState.set_callback]

/-- Calls of `IsDownloadReadyForCompletion` while the check is in flight: each
returns false, the last callback stays pending, and no call is made. -/
theorem steps_inFlight (sb_service : Option SafeBrowsingService) (item : DownloadItem)
    (callbacks : List Closure) :
    ∀ (pending : Closure) (effects : List Effect) (returns : List Bool),
      CompletionRun.steps sb_service
          { item := item.inFlight pending, effects := effects, returns := returns
            crashed := false }
          (readyCalls callbacks) =
        { item := item.inFlight (callbacks.getLastD pending)
          effects := effects
          returns := returns ++ List.replicate callbacks.length false
          crashed := false } := by
  induction callbacks with
  | nil =>
    intro pending effects returns
    simp [CompletionRun.steps, readyCalls]
  | cons c cs ih =>
    intro pending effects returns
    have hstep : CompletionRun.step sb_service
        { item := item.inFlight pending, effects := effects, returns := returns
          crashed := false }
        (CompletionEvent.IsDownloadReadyForCompletion c) =
        { item := item.inFlight c, effects := effects, returns := returns ++ [false]
          crashed := false } := by
      simp [CompletionRun.step, IsDownloadReadyForCompletion_inFlight]
    have hfold : CompletionRun.steps sb_service
        { item := item.inFlight pending, effects := effects, returns := returns
          crashed := false }
        (readyCalls (c :: cs)) =
        CompletionRun.steps sb_service
          (CompletionRun.step sb_service
            { item := item.inFlight pending, effects := effects, returns := returns
              crashed := false }
            (CompletionEvent.IsDownloadReadyForCompletion c))
          (readyCalls cs) := by
      simp [CompletionRun.steps, readyCalls]
    rw [hfold, hstep, ih c effects (returns ++ [false]), List.getLastD_cons]
    simp [List.replicate_succ]

/-- Calls of `IsDownloadReadyForCompletion` once the state is complete: each
returns true, and neither the item nor the calls made change. -/
theorem steps_complete (sb_service : Option SafeBrowsingService)
    (callbacks : List Closure) :
    ∀ (item : DownloadItem) (state : SafeBrowsingState) (effects : List Effect)
      (returns : List Bool),
      item.user_data = some state → state.is_complete = true →
      CompletionRun.steps sb_service
          { item := item, effects := effects, returns := returns, crashed := false }
          (readyCalls callbacks) =
        { item := item
          effects := effects
          returns := returns ++ List.replicate callbacks.length true
          crashed := false } := by
  induction callbacks with
  | nil =>
    intro item state effects returns _ _
    simp [CompletionRun.steps, readyCalls]
  | cons c cs ih =>
    intro item state effects returns hu hc
    have hready : IsDownloadReadyForCompletion sb_service item c =
        { ready := true, item := item, effects := [] } := by
      simp [IsDownloadReadyForCompletion, hu, hc]
    have hfold : CompletionRun.steps sb_service
        { item := item, effects := effects, returns := returns, crashed := false }
        (readyCalls (c :: cs)) =
        CompletionRun.steps sb_service
          { item := item, effects := effects, returns := returns ++ [true], crashed := false }
          (readyCalls cs) := by
      simp [CompletionRun.steps, readyCalls, CompletionRun.step, hready]
    rw [hfold, ih item state effects (returns ++ [true]) hu hc]
    simp [List.replicate_succ]

/-- The calls before the answer, from a fresh item with a protection service
present: the first starts the one check, all return false, and the callback of
the last one is pending. -/
theorem steps_before_answer (sb_service : Option SafeBrowsingService)
    (service : DownloadProtectionService)
    (hs : GetDownloadProtectionService sb_service = some service)
    (item : DownloadItem) (h0 : item.user_data = none)
    (before : List Closure) (last : Closure) :
    CompletionRun.steps sb_service (CompletionRun.start item) (readyCalls (before ++ [last])) =
      { item := item.inFlight last
        effects := [Effect.CheckClientDownload item.id]
        returns := List.replicate (before.length + 1) false
        crashed := false } := by
  have hfirst : ∀ c, CompletionRun.step sb_service (CompletionRun.start item)
      (CompletionEvent.IsDownloadReadyForCompletion c) =
      { item := item.inFlight c, effects := [Effect.CheckClientDownload item.id]
        returns := [false], crashed := false } := by
    intro c
    simp [CompletionRun.step, CompletionRun.start, IsDownloadReadyForCompletion, h0, hs,
      DownloadItem.inFlight, DownloadItem.SetUserData, SafeBrowsingState.set_callback,
      SafeBrowsingState.new]
  cases before with
  | nil =>
    have hfold : CompletionRun.steps sb_service (CompletionRun.start item)
        (readyCalls ([] ++ [last])) =
        CompletionRun.step sb_service (CompletionRun.start item)
          (CompletionEvent.IsDownloadReadyForCompletion last) := by
      simp [CompletionRun.steps, readyCalls]
    rw [hfold, hfirst]
    simp
  | cons b bs =>
    have hfold : CompletionRun.steps sb_service (CompletionRun.start item)
        (readyCalls ((b :: bs) ++ [last])) =
        CompletionRun.steps sb_service
          (CompletionRun.step sb_service (CompletionRun.start item)
            (CompletionEvent.IsDownloadReadyForCompletion b))
          (readyCalls (bs ++ [last])) := by
      simp [CompletionRun.steps, readyCalls]
    rw [hfold, hfirst, steps_inFlight, List.getLastD_concat]
    simp [List.replicate_succ]

/-- The answer to the check, on an in-progress item whose check is in flight:
the pending callback is run, once, and the state is complete afterwards. -/
theorem step_answer_in_progress (sb_service : Option SafeBrowsingService)
    (item : DownloadItem) (hp : item.state = DownloadState.IN_PROGRESS)
    (pending : Closure) (effects : List Effect) (returns : List Bool)
    (result : DownloadCheckResult) :
    ∃ after state,
      CompletionRun.step sb_service
          { item := item.inFlight pending, effects := effects, returns := returns
            crashed := false }
          (CompletionEvent.CheckClientDownloadDone result) =
        { item := after, effects := effects ++ [Effect.RunClosure pending]
          returns := returns, crashed := false } ∧
      after.user_data = some state ∧ state.is_complete = true := by
  cases hd : item.danger_type <;> cases hl : item.danger_level <;> cases result <;>
    simp [CompletionRun.step, CheckClientDownloadDone, DownloadItem.inFlight, hp, hd, hl,
      CheckClientDownloadDone_danger_type, DownloadItem.OnContentCheckCompleted,
      DownloadItem.SetUserData, SafeBrowsingState.CompleteDownload]

/-- The answer to the check, on an item that is no longer in progress: nothing
changes, and the check stays in flight. -/
theorem step_answer_not_in_progress (sb_service : Option SafeBrowsingService)
    (item : DownloadItem) (hp : item.state ≠ DownloadState.IN_PROGRESS)
    (pending : Closure) (effects : List Effect) (returns : List Bool)
    (result : DownloadCheckResult) :
    CompletionRun.step sb_service
        { item := item.inFlight pending, effects := effects, returns := returns
          crashed := false }
        (CompletionEvent.CheckClientDownloadDone result) =
      { item := item.inFlight pending, effects := effects, returns := returns
        crashed := false } := by
  simp [CompletionRun.step, CheckClientDownloadDone, DownloadItem.inFlight, hp]

/-- C1: with a protection service present, take a download with no
safe-browsing state yet, any calls of `IsDownloadReadyForCompletion`, the one
answer `CheckClientDownloadDone`, and any further calls. Up to the answer the
one check has been started, by the first call, every call has returned false,
and the callback of the last call is the one stored. Over the whole sequence
nothing crashes, exactly one check is started, and the only callback run is
that last one, once, when the item is in progress at the answer, and none
otherwise; the calls after the answer return true when it was run and false
when it was not. Any call on an item whose state is attached and not complete
only replaces the stored callback and returns false, and any call on an item
whose state is complete returns true and stores and runs nothing; the closure
`ShouldCompleteDownload` binds, run on such an item, runs the user callback
once and nothing else. -/
theorem completion_check_started_and_run_once (sb_service : Option SafeBrowsingService)
    (service : DownloadProtectionService)
    (hs : GetDownloadProtectionService sb_service = some service)
    (item : DownloadItem) (h0 : item.user_data = none)
    (before : List Closure) (last : Closure) (result : DownloadCheckResult)
    (after : List Closure) :
    CompletionRun.steps sb_service (CompletionRun.start item) (readyCalls (before ++ [last])) =
      { item := { item with user_data := some { is_complete := false, callback := some last } }
        effects := [Effect.CheckClientDownload item.id]
        returns := List.replicate (before.length + 1) false
        crashed := false } ∧
    (CompletionRun.steps sb_service (CompletionRun.start item)
      (readyCalls (before ++ [last]) ++
        CompletionEvent.CheckClientDownloadDone result :: readyCalls after)).crashed = false ∧
    checksStarted (CompletionRun.steps sb_service (CompletionRun.start item)
      (readyCalls (before ++ [last]) ++
        CompletionEvent.CheckClientDownloadDone result :: readyCalls after)).effects =
      [item.id] ∧
    closuresRun (CompletionRun.steps sb_service (CompletionRun.start item)
      (readyCalls (before ++ [last]) ++
        CompletionEvent.CheckClientDownloadDone result :: readyCalls after)).effects =
      (if item.state = DownloadState.IN_PROGRESS then [last] else []) ∧
    (CompletionRun.steps sb_service (CompletionRun.start item)
      (readyCalls (before ++ [last]) ++
        CompletionEvent.CheckClientDownloadDone result :: readyCalls after)).returns =
      List.replicate (before.length + 1) false ++
        List.replicate after.length (decide (item.state = DownloadState.IN_PROGRESS)) ∧
    (∀ (other : DownloadItem) (state : SafeBrowsingState) (callback : Closure),
      other.user_data = some state → state.is_complete = false →
      IsDownloadReadyForCompletion sb_service other callback =
        { ready := false
          item := { other with user_data := some { state with callback := some callback } }
          effects := [] }) ∧
    (∀ (other : DownloadItem) (state : SafeBrowsingState) (callback : Closure),
      other.user_data = some state → state.is_complete = true →
      IsDownloadReadyForCompletion sb_service other callback =
        { ready := true, item := other, effects := [] }) ∧
    (∀ (download_manager : Nat → Option DownloadItem) (download_id : Nat)
      (other : DownloadItem) (state : SafeBrowsingState) (user_complete_callback : Closure),
      download_manager download_id = some other →
      other.user_data = some state → state.is_complete = true →
      ShouldCompleteDownloadInternal sb_service download_manager download_id
          user_complete_callback =
        { item := some other, effects := [Effect.RunClosure user_complete_callback]
          crashed := false, dcheck_failed := false }) := by
  have hbefore := steps_before_answer sb_service service hs item h0 before last
  have hsplit : CompletionRun.steps sb_service (CompletionRun.start item)
      (readyCalls (before ++ [last]) ++
        CompletionEvent.CheckClientDownloadDone result :: readyCalls after) =
      CompletionRun.steps sb_service
        (CompletionRun.step sb_service
          (CompletionRun.steps sb_service (CompletionRun.start item)
            (readyCalls (before ++ [last])))
          (CompletionEvent.CheckClientDownloadDone result))
        (readyCalls after) := by
    simp [CompletionRun.steps, List.foldl_append]
  refine ⟨hbefore, ?_, ?_, ?_, ?_, ?_, ?_, ?_⟩
  · rw [hsplit, hbefore]
    by_cases hp : item.state = DownloadState.IN_PROGRESS
    · obtain ⟨x, state, hx, hu, hc⟩ := step_answer_in_progress sb_service item hp last
        [Effect.CheckClientDownload item.id] (List.replicate (before.length + 1) false) result
      rw [hx, steps_complete sb_service after x state _ _ hu hc]
    · rw [step_answer_not_in_progress sb_service item hp, steps_inFlight]
  · rw [hsplit, hbefore]
    by_cases hp : item.state = DownloadState.IN_PROGRESS
    · obtain ⟨x, state, hx, hu, hc⟩ := step_answer_in_progress sb_service item hp last
        [Effect.CheckClientDownload item.id] (List.replicate (before.length + 1) false) result
      rw [hx, steps_complete sb_service after x state _ _ hu hc]
      simp [checksStarted]
    · rw [step_answer_not_in_progress sb_service item hp, steps_inFlight]
      simp [checksStarted]
  · rw [hsplit, hbefore]
    by_cases hp : item.state = DownloadState.IN_PROGRESS
    · obtain ⟨x, state, hx, hu, hc⟩ := step_answer_in_progress sb_service item hp last
        [Effect.CheckClientDownload item.id] (List.replicate (before.length + 1) false) result
      rw [hx, steps_complete sb_service after x state _ _ hu hc]
      simp [closuresRun, hp]
    · rw [step_answer_not_in_progress sb_service item hp, steps_inFlight]
      simp [closuresRun, hp]
  · rw [hsplit, hbefore]
    by_cases hp : item.state = DownloadState.IN_PROGRESS
    · obtain ⟨x, state, hx, hu, hc⟩ := step_answer_in_progress sb_service item hp last
        [Effect.CheckClientDownload item.id] (List.replicate (before.length + 1) false) result
      rw [hx, steps_complete sb_service after x state _ _ hu hc]
      simp [hp]
    · rw [step_answer_not_in_progress sb_service item hp, steps_inFlight]
      simp [hp]
  · intro other state callback hu hc
    simp [IsDownloadReadyForCompletion, hu, hc, DownloadItem.SetUserData,
      SafeBrowsingState.set_callback]
  · intro other state callback hu hc
    simp [IsDownloadReadyForCompletion, hu, hc]
  · intro download_manager download_id other state user_complete_callback hi hu hc
    simp [ShouldCompleteDownloadInternal, ShouldCompleteDownload,
      IsDownloadReadyForCompletion, hi, hu, hc]

/-- C1, on the sample download: two calls, a SAFE answer, one more call. One
check is started, the callback of the second call is the only one run, and
the third call returns true. -/
theorem completion_check_started_and_run_once_witness :
    GetDownloadProtectionService (some SafeBrowsingService.sample) = some { handle := 1 } ∧
    DownloadItem.sample.user_data = none ∧
    checksStarted (CompletionRun.steps (some SafeBrowsingService.sample)
      (CompletionRun.start DownloadItem.sample)
      (readyCalls ([Closure.host 1] ++ [Closure.host 2]) ++
        CompletionEvent.CheckClientDownloadDone DownloadCheckResult.SAFE ::
          readyCalls [Closure.host 3])).effects = [DownloadItem.sample.id] ∧
    closuresRun (CompletionRun.steps (some SafeBrowsingService.sample)
      (CompletionRun.start DownloadItem.sample)
      (readyCalls ([Closure.host 1] ++ [Closure.host 2]) ++
        CompletionEvent.CheckClientDownloadDone DownloadCheckResult.SAFE ::
          readyCalls [Closure.host 3])).effects =
      (if DownloadItem.sample.state = DownloadState.IN_PROGRESS then [Closure.host 2] else []) :=
  ⟨rfl, rfl,
   (completion_check_started_and_run_once (some SafeBrowsingService.sample) { handle := 1 } rfl
      DownloadItem.sample rfl [Closure.host 1] (Closure.host 2) DownloadCheckResult.SAFE
      [Closure.host 3]).2.2.1,
   (completion_check_started_and_run_once (some SafeBrowsingService.sample) { handle := 1 } rfl
      DownloadItem.sample rfl [Closure.host 1] (Closure.host 2) DownloadCheckResult.SAFE
      [Closure.host 3]).2.2.2.1⟩

/-! ## The target path or the save dialog -/

/-- C11: the download exists, it has no save path of its own and the target
path determined is empty, so the save dialog is due (the source says "Show save
dialog if save path was not set already on item"); but its web contents have
no window relay, and `OnDownloadTargetDetermined` opens no dialog: it makes no
call at all and dereferences the null window. -/
theorem OnDownloadTargetDetermined_empty_path_opens_no_dialog :
    GetItemSavePath DownloadItem.sampleNoRelay "" = "" ∧
    (OnDownloadTargetDetermined PathLibrary.sample
        (fun id => if id = 7 then some DownloadItem.sampleNoRelay else none) 7 1
        { target_path := "", danger_type := DownloadDangerType.NOT_DANGEROUS,
          result := DownloadInterruptReason.NONE }).effects = [] ∧
    (∀ web_contents name info callback id,
      Effect.FileEntryPicker web_contents name info callback id ∉
        (OnDownloadTargetDetermined PathLibrary.sample
          (fun id => if id = 7 then some DownloadItem.sampleNoRelay else none) 7 1
          { target_path := "", danger_type := DownloadDangerType.NOT_DANGEROUS,
            result := DownloadInterruptReason.NONE }).effects) := by
  have h : (OnDownloadTargetDetermined PathLibrary.sample
        (fun id => if id = 7 then some DownloadItem.sampleNoRelay else none) 7 1
        { target_path := "", danger_type := DownloadDangerType.NOT_DANGEROUS,
          result := DownloadInterruptReason.NONE }).effects = [] := by
    decide
  refine ⟨by decide, h, ?_⟩
  intro web_contents name info callback id
  rw [h]
  simp

/-- What `OnDownloadTargetDetermined` does where the window is not in the way:
for an existing item, the effective path is the save path of the item's
wrapper when there is one and it is non-empty, and the target path of
`target_info` otherwise. When the effective path is non-empty, the callback is
run exactly once, with that path as target and intermediate path, disposition
PROMPT, and the danger type and result of `target_info`, and no dialog is
opened. When it is empty and the item has a native window, one save dialog is
opened, on that window, bound to the callback and the item, and the callback
is not run. When the id resolves to no item, nothing is done. -/
theorem OnDownloadTargetDetermined_path_or_dialog (lib : PathLibrary)
    (download_manager : Nat → Option DownloadItem) (download_id : Nat) (callback : Nat)
    (target_info : DownloadTargetInfo) :
    (∀ item download, download_manager download_id = some item →
      item.wrapper = some download → download.save_path ≠ "" →
      (OnDownloadTargetDetermined lib download_manager download_id callback target_info).effects =
        [Effect.RunTargetCallback callback download.save_path
          TargetDisposition.TARGET_DISPOSITION_PROMPT target_info.danger_type
          download.save_path target_info.result] ∧
      (OnDownloadTargetDetermined lib download_manager download_id callback
        target_info).crashed = false) ∧
    (∀ item, download_manager download_id = some item →
      (∀ download, item.wrapper = some download → download.save_path = "") →
      target_info.target_path ≠ "" →
      (OnDownloadTargetDetermined lib download_manager download_id callback target_info).effects =
        [Effect.RunTargetCallback callback target_info.target_path
          TargetDisposition.TARGET_DISPOSITION_PROMPT target_info.danger_type
          target_info.target_path target_info.result] ∧
      (OnDownloadTargetDetermined lib download_manager download_id callback
        target_info).crashed = false) ∧
    (∀ item w, download_manager download_id = some item →
      (∀ download, item.wrapper = some download → download.save_path = "") →
      target_info.target_path = "" →
      OnDownloadTargetDetermined_window item = some w →
      (∃ info,
        (OnDownloadTargetDetermined lib download_manager download_id callback
          target_info).effects =
          [Effect.FileEntryPicker w.inspectable_web_contents "" info callback item.id]) ∧
      (OnDownloadTargetDetermined lib download_manager download_id callback
        target_info).crashed = false) ∧
    (download_manager download_id = none →
      OnDownloadTargetDetermined lib download_manager download_id callback target_info =
        { item := none, effects := [], crashed := false, dcheck_failed := false }) := by
  refine ⟨?_, ?_, ?_, ?_⟩
  · intro item download hi hw hne
    have hp : GetItemSavePath item target_info.target_path = download.save_path := by
      simp [GetItemSavePath, hw, hne]
    have h := (OnDownloadTargetDetermined_effects lib download_manager download_id callback
      target_info item hi).1
    rw [hp] at h
    exact h hne
  · intro item hi hw hne
    have hp : GetItemSavePath item target_info.target_path = target_info.target_path := by
      cases hd : item.wrapper with
      | none => simp [GetItemSavePath, hd]
      | some d => simp [GetItemSavePath, hd, hw d hd]
    have h := (OnDownloadTargetDetermined_effects lib download_manager download_id callback
      target_info item hi).1
    rw [hp] at h
    exact h hne
  · intro item w hi hw he hwin
    have hp : GetItemSavePath item target_info.target_path = "" := by
      cases hd : item.wrapper with
      | none => simp [GetItemSavePath, hd, he]
      | some d => simp [GetItemSavePath, hd, hw d hd, he]
    exact (OnDownloadTargetDetermined_effects lib download_manager download_id callback
      target_info item hi).2.2 hp w hwin
  · intro hi
    simp [OnDownloadTargetDetermined, hi]

/-- The sample download in its window: with no path to go by, a save dialog is
opened on the window, and the callback is not run. -/
theorem OnDownloadTargetDetermined_path_or_dialog_witness :
    (∀ download, DownloadItem.sampleInWindow.wrapper = some download →
      download.save_path = "") ∧
    OnDownloadTargetDetermined_window DownloadItem.sampleInWindow =
      some { inspectable_web_contents := 11 } ∧
    ((∃ info,
      (OnDownloadTargetDetermined PathLibrary.sample
        (fun id => if id = 7 then some DownloadItem.sampleInWindow else none) 7 1
        { target_path := "", danger_type := DownloadDangerType.NOT_DANGEROUS,
          result := DownloadInterruptReason.NONE }).effects =
        [Effect.FileEntryPicker 11 "" info 1 7]) ∧
     (OnDownloadTargetDetermined PathLibrary.sample
        (fun id => if id = 7 then some DownloadItem.sampleInWindow else none) 7 1
        { target_path := "", danger_type := DownloadDangerType.NOT_DANGEROUS,
          result := DownloadInterruptReason.NONE }).crashed = false) :=
  ⟨fun _ h => by simp [DownloadItem.sampleInWindow, DownloadItem.sample] at h, rfl,
   (OnDownloadTargetDetermined_path_or_dialog PathLibrary.sample
      (fun id => if id = 7 then some DownloadItem.sampleInWindow else none) 7 1
      { target_path := "", danger_type := DownloadDangerType.NOT_DANGEROUS,
        result := DownloadInterruptReason.NONE }).2.2.1 DownloadItem.sampleInWindow
      { inspectable_web_contents := 11 } rfl
      (fun _ h => by simp [DownloadItem.sampleInWindow, DownloadItem.sample] at h) rfl rfl⟩

end Muon
